import Mathlib

/-!
Verification of the evaluator core of the monkey-lang tree-walking
interpreter (src/evaluator/evaluator.go) against its natural-language
specification. The runtime object model, the environment, the AST node
kinds and the operator token strings live in packages outside the
evaluator source; they are modelled from the specification (§3, §4.2,
§4.3) and from the operator symbols the spec names.
-/

namespace Monkey

/- Operator token symbols: the `token` package is not part of the
evaluator source; §4.1 of the spec names the operators `!`, `-`, `+`,
`*`, `/`, `==`, `!=`, `<`, `>`. -/
namespace token

/-- Modelled from the spec: the logical-negation operator token. -/
@[simp] def BANG : String := "!"

/-- Modelled from the spec: the minus operator token. -/
@[simp] def MINUS : String := "-"

/-- Modelled from the spec: the plus operator token. -/
@[simp] def PLUS : String := "+"

/-- Modelled from the spec: the multiplication operator token. -/
@[simp] def ASTERISK : String := "*"

/-- Modelled from the spec: the division operator token. -/
@[simp] def SLASH : String := "/"

/-- Modelled from the spec: the equality operator token. -/
@[simp] def EQ : String := "=="

/-- Modelled from the spec: the inequality operator token. -/
@[simp] def NOT_EQ : String := "!="

/-- Modelled from the spec: the less-than operator token. -/
@[simp] def LT : String := "<"

/-- Modelled from the spec: the greater-than operator token. -/
@[simp] def GT : String := ">"

end token

/-- Modelled from the spec: the Runtime Object tagged union (§3). Integer
holds a signed 64-bit value; Boolean and Null exist only as the canonical
singletons, so in this model a `boolean`/`null` value stands for the
shared singleton instance. Go interface values are nilable, and a
ReturnValue built from a nil sub-result genuinely wraps nil, so
`returnValue` carries an `Option Object`. -/
inductive Object where
  | integer (value : Int)
  | boolean (value : Bool)
  | null
  | returnValue (value : Option Object)
  | error (message : String)

/-- Modelled from the spec: the closed set of type tags (§4.2). -/
@[simp] def INTEGER_OBJ : String := "INTEGER"

@[simp] def BOOLEAN_OBJ : String := "BOOLEAN"

@[simp] def NULL_OBJ : String := "NULL"

@[simp] def RETURN_VALUE_OBJ : String := "RETURN_VALUE"

@[simp] def ERROR_OBJ : String := "ERROR"

/-- Modelled from the spec: each Object variant answers a `Type()` query
returning its tag (§4.2). (`Type` itself is a Lean keyword, hence
`objectType`.) -/
@[simp] def Object.objectType : Object → String
  | .integer _ => INTEGER_OBJ
  | .boolean _ => BOOLEAN_OBJ
  | .null => NULL_OBJ
  | .returnValue _ => RETURN_VALUE_OBJ
  | .error _ => ERROR_OBJ

/-- The canonical TRUE singleton (evaluator.go line 11). -/
@[simp] def TRUE : Object := .boolean true

/-- The canonical FALSE singleton (evaluator.go line 12). -/
@[simp] def FALSE : Object := .boolean false

/-- The canonical Null singleton (evaluator.go line 13). -/
@[simp] def NULL : Object := .null

/-- Structural stand-in for the Go interface equality `left == right`
(evaluator.go line 104) in this structural model. It is exact on the
canonical Boolean and Null singletons, where pointer identity coincides
with value equality; for heap-allocated objects (ReturnValue pairs in
particular) pointer identity is not determined by the structural value —
a ReturnValue aliased into both operands through an environment binding
is pointer-equal in Go but compares false here. The allocation-indexed
model below (`ObjectA`, `refEqA`, `EvalA`) makes pointer identity
explicit and exact, and carries the identity-based equality claim. -/
@[simp] def refEq : Object → Object → Bool
  | .boolean a, .boolean b => a == b
  | .null, .null => true
  | _, _ => false

/-- Modelled from the spec: the Environment (§4.3), a flat name-to-Object
store; Go map values are nilable interfaces, so a binding holds an
`Option Object`. Represented as an association list where `Set` prepends
and `Get` takes the most recent binding, which realises the
create-or-overwrite contract. -/
abbrev Environment := List (String × Option Object)

/-- Modelled from the spec: `Set(name, value)` unconditionally creates or
overwrites the binding for `name` (§4.3). -/
@[simp] def Environment.Set (env : Environment) (name : String) (val : Option Object) : Environment :=
  (name, val) :: env

/-- Modelled from the spec: `Get(name)` returns the bound Object and
`true` if present, or a not-found signal otherwise (§4.3). -/
@[simp] def Environment.Get : Environment → String → Option Object × Bool
  | [], _ => (none, false)
  | (k, v) :: rest, name => if k == name then (v, true) else Environment.Get rest name

/-- Modelled from the spec: the syntax-tree node kinds (§3); the `ast`
package is not part of the evaluator source. Go's `Eval` dispatches
dynamically on `ast.Node`, and the spec's enumeration of node kinds is
exactly this sum. An IfExpression's consequence/alternative are block
statements fed back through `Eval`, hence plain `Node` fields here. -/
inductive Node where
  | program (statements : List Node)
  | blockStatement (statements : List Node)
  | expressionStatement (expression : Node)
  | integerLiteral (value : Int)
  | boolean (value : Bool)
  | prefixExpression (operator : String) (right : Node)
  | infixExpression (operator : String) (left : Node) (right : Node)
  | ifExpression (condition : Node) (consequence : Node) (alternative : Option Node)
  | returnStatement (returnValue : Node)
  | letStatement (name : String) (value : Node)
  | identifier (value : String)

/-- Embeds `newError` (evaluator.go line 209); the `fmt.Sprintf` formatting is
inlined as string concatenation at each call site. -/
@[simp] def newError (message : String) : Object := .error message

/-- Embeds `isError` (evaluator.go line 213): nil is not an error. -/
@[simp] def isError : Option Object → Bool
  | some obj => obj.objectType == ERROR_OBJ
  | none => false

/-- Embeds `nativeBoolToBooleanObject` (evaluator.go line 169). -/
@[simp] def nativeBoolToBooleanObject (input : Bool) : Object :=
  if input then TRUE else FALSE

/-- Embeds `isTruthy` (evaluator.go line 82): a pointer switch against the
canonical singletons with a truthy default; a nil condition also falls
into the default. -/
@[simp] def isTruthy : Option Object → Bool
  | some .null => false
  | some (.boolean true) => true
  | some (.boolean false) => false
  | _ => true

/-- Signed 64-bit two's-complement range bounds. -/
def int64Min : Int := -(2 ^ 63)

def int64Max : Int := 2 ^ 63 - 1

/-- Holds when `n` is representable as a Go `int64`. -/
def isInt64 (n : Int) : Prop := int64Min ≤ n ∧ n ≤ int64Max

instance (n : Int) : Decidable (isInt64 n) := by unfold isInt64; infer_instance

/-- Reduction of an integer into the signed 64-bit range, the semantics
of Go `int64` arithmetic (which wraps on overflow). -/
def wrap64 (n : Int) : Int := (n + 2 ^ 63) % 2 ^ 64 - 2 ^ 63

/-- Embeds `evalIntegerInfixExpression` (evaluator.go line 112), on the two
`.Value` fields. Go `int64` `+`, `-`, `*` wrap on overflow and `/` is
truncated (toward-zero) division, with the single overflowing quotient
`int64Min / -1` wrapping back to `int64Min`; hence `wrap64` around each
arithmetic result. Division by zero makes the Go program fault (spec §9
leaves it unspecified); the model's value there carries no meaning and
no theorem relies on it. -/
@[simp] def evalIntegerInfixExpression (left right : Int) (operator : String) : Object :=
  if operator == token.PLUS then .integer (wrap64 (left + right))
  else if operator == token.MINUS then .integer (wrap64 (left - right))
  else if operator == token.ASTERISK then .integer (wrap64 (left * right))
  else if operator == token.SLASH then .integer (wrap64 (left.tdiv right))
  else if operator == token.EQ then nativeBoolToBooleanObject (decide (left = right))
  else if operator == token.NOT_EQ then nativeBoolToBooleanObject (decide (left ≠ right))
  else if operator == token.LT then nativeBoolToBooleanObject (decide (left < right))
  else if operator == token.GT then nativeBoolToBooleanObject (decide (left > right))
  else newError ("unknown operator: " ++ INTEGER_OBJ ++ " " ++ operator ++ " " ++ INTEGER_OBJ)

/-- Embeds `evalInfixExpression` (evaluator.go line 95). The operands are the
nilable results of evaluating the two sides; a nil operand makes the Go
program fault on `left.Type()` (unreachable for expression operands that
produce a value), modelled as no value. After the type-mismatch guard,
both tags equal, so the both-INTEGER test is exactly the match on two
`integer` constructors; the remaining `==`/`!=` cases are Go interface
pointer comparisons, `refEq`. -/
@[simp] def evalInfixExpression (left right : Option Object) (operator : String) : Option Object :=
  match left, right with
  | some left, some right =>
    if left.objectType != right.objectType then
      some (newError ("type mismatch: " ++ left.objectType ++ " + " ++ right.objectType))
    else
      match left, right with
      | .integer leftValue, .integer rightValue =>
          some (evalIntegerInfixExpression leftValue rightValue operator)
      | _, _ =>
        if operator == token.EQ then some (nativeBoolToBooleanObject (refEq left right))
        else if operator == token.NOT_EQ then some (nativeBoolToBooleanObject (!refEq left right))
        else some (newError ("unknown operator: " ++ left.objectType ++ " " ++ operator ++ " "
            ++ right.objectType))
  | _, _ => none

/-- Embeds `evalBangOperator` (evaluator.go line 156): a pointer switch against
the canonical singletons; everything else (a nil operand included) hits
the default and yields FALSE. -/
@[simp] def evalBangOperator : Option Object → Object
  | some (.boolean true) => FALSE
  | some (.boolean false) => TRUE
  | some .null => TRUE
  | _ => FALSE

/-- Embeds `evalMinusPrefixOperator` (evaluator.go line 146). A nil operand
makes the Go program fault on `o.Type()`, modelled as no value. Negation
of a Go `int64` wraps, hence `wrap64`. -/
@[simp] def evalMinusPrefixOperator : Option Object → Option Object
  | some (.integer value) => some (.integer (wrap64 (-value)))
  | some o => some (newError ("unknown operator: " ++ token.MINUS ++ o.objectType))
  | none => none

/-- Embeds `evalPrefixExpression` (evaluator.go line 135); the default case
builds its message from `object.Type()` and faults on nil, modelled as
no value. -/
@[simp] def evalPrefixExpression (operator : String) (o : Option Object) : Option Object :=
  if operator == token.BANG then some (evalBangOperator o)
  else if operator == token.MINUS then evalMinusPrefixOperator o
  else
    match o with
    | some obj => some (newError ("unknown operator: " ++ operator ++ obj.objectType))
    | none => none

mutual

/-- Embeds `Eval` (evaluator.go line 16). The Go function mutates the supplied
environment in place; the model threads it explicitly, returning the
(nilable) result Object together with the environment. The LetStatement
case falls through the switch to the final `return nil`. -/
@[simp] def Eval : Node → Environment → Option Object × Environment
  | .program statements, env => evalProgram statements env
  | .blockStatement statements, env => evalBlockStatement statements env
  | .expressionStatement expression, env => Eval expression env
  | .integerLiteral value, env => (some (.integer value), env)
  | .boolean value, env => (some (nativeBoolToBooleanObject value), env)
  | .prefixExpression operator right, env =>
      match Eval right env with
      | (r, env₁) => if isError r then (r, env₁) else (evalPrefixExpression operator r, env₁)
  | .infixExpression operator left right, env =>
      match Eval left env with
      | (l, env₁) =>
        if isError l then (l, env₁)
        else
          match Eval right env₁ with
          | (r, env₂) =>
            if isError r then (r, env₂) else (evalInfixExpression l r operator, env₂)
  | .ifExpression condition consequence alternative, env =>
      evalIfExpression condition consequence alternative env
  | .returnStatement returnValue, env =>
      match Eval returnValue env with
      | (val, env₁) =>
        if isError val then (val, env₁) else (some (.returnValue val), env₁)
  | .letStatement name value, env =>
      match Eval value env with
      | (val, env₁) =>
        if isError val then (val, env₁) else (none, env₁.Set name val)
  | .identifier value, env =>
      match env.Get value with
      | (val, ok) =>
        if !ok then (some (newError ("identifier not found: " ++ value)), env) else (val, env)
termination_by n _ => sizeOf n
decreasing_by
all_goals simp_wf
all_goals omega

/-- Embeds `evalIfExpression` (evaluator.go line 69), on the IfExpression's
fields. Note: the condition's result feeds `isTruthy` directly, with no
`isError` check. -/
@[simp] def evalIfExpression (condition consequence : Node) (alternative : Option Node)
    (env : Environment) : Option Object × Environment :=
  let c := Eval condition env
  if isTruthy c.1 then Eval consequence c.2
  else
    match alternative with
    | some alt => Eval alt c.2
    | none => (some NULL, c.2)
termination_by sizeOf condition + sizeOf consequence + sizeOf alternative
decreasing_by
all_goals simp_wf
all_goals try omega
all_goals
  (have h1 : 0 < sizeOf condition := by cases condition <;> simp_arith
   have h2 : 0 < sizeOf consequence := by cases consequence <;> simp_arith
   have h3 : 0 < sizeOf alternative := by cases alternative <;> simp_arith
   omega)

/-- Embeds `evalBlockStatement` (evaluator.go line 176): statement by statement;
a non-nil RETURN_VALUE or ERROR result is returned as-is, otherwise the
last statement's result is returned. -/
@[simp] def evalBlockStatement : List Node → Environment → Option Object × Environment
  | [], env => (none, env)
  | statement :: rest, env =>
      match Eval statement env with
      | (result, env₁) =>
        match result with
        | some (.returnValue v) => (some (.returnValue v), env₁)
        | some (.error m) => (some (.error m), env₁)
        | _ => if rest.isEmpty then (result, env₁) else evalBlockStatement rest env₁
termination_by l _ => sizeOf l
decreasing_by
all_goals simp_wf
all_goals omega

/-- Embeds `evalProgram` (evaluator.go line 193): statement by statement; a
ReturnValue result stops evaluation and its inner value is returned, an
Error result stops evaluation and is returned itself, otherwise the last
statement's result is returned. -/
@[simp] def evalProgram : List Node → Environment → Option Object × Environment
  | [], env => (none, env)
  | statement :: rest, env =>
      match Eval statement env with
      | (result, env₁) =>
        match result with
        | some (.returnValue v) => (v, env₁)
        | some (.error m) => (some (.error m), env₁)
        | _ => if rest.isEmpty then (result, env₁) else evalProgram rest env₁
termination_by l _ => sizeOf l
decreasing_by
all_goals simp_wf
all_goals omega

end

/- The allocation-indexed model: the same source functions translated a
second time with Go heap identity made explicit, so that the interface
pointer comparison `left == right` at evaluator.go line 104 is expressible
exactly. An allocation counter is threaded through evaluation; every
`&object.X{...}` allocation site stamps the freshly built object with the
current counter value and bumps it. Two Go interface values are
pointer-equal iff they are the same canonical singleton or carry the same
allocation id. -/

/-- Modelled from the spec: the Runtime Object tagged union (§3) as in
`Object`, with heap-allocated variants (Integer, ReturnValue, Error)
carrying their allocation id; Boolean and Null are the two-plus-one
canonical singletons and carry none. -/
inductive ObjectA where
  | integer (id : Nat) (value : Int)
  | boolean (value : Bool)
  | null
  | returnValue (id : Nat) (value : Option ObjectA)
  | error (id : Nat) (message : String)

/-- Modelled from the spec: the `Type()` query (§4.2), ignoring ids. -/
@[simp] def ObjectA.objectTypeA : ObjectA → String
  | .integer _ _ => INTEGER_OBJ
  | .boolean _ => BOOLEAN_OBJ
  | .null => NULL_OBJ
  | .returnValue _ _ => RETURN_VALUE_OBJ
  | .error _ _ => ERROR_OBJ

/-- The canonical TRUE singleton (evaluator.go line 11). -/
@[simp] def TRUEA : ObjectA := .boolean true

/-- The canonical FALSE singleton (evaluator.go line 12). -/
@[simp] def FALSEA : ObjectA := .boolean false

/-- The canonical Null singleton (evaluator.go line 13). -/
@[simp] def NULLA : ObjectA := .null

/-- Go interface pointer equality (`left == right`, evaluator.go line
104), exactly: the canonical singletons compare by value (exactly one
instance of each exists), heap-allocated objects compare by allocation
id, and differing dynamic types never compare equal. -/
@[simp] def refEqA : ObjectA → ObjectA → Bool
  | .integer i _, .integer j _ => i == j
  | .boolean a, .boolean b => a == b
  | .null, .null => true
  | .returnValue i _, .returnValue j _ => i == j
  | .error i _, .error j _ => i == j
  | _, _ => false

/-- Modelled from the spec: the Environment (§4.3) over allocation-indexed
objects. -/
abbrev EnvironmentA := List (String × Option ObjectA)

/-- Modelled from the spec: `Set(name, value)` creates or overwrites
(§4.3). -/
@[simp] def EnvironmentA.Set (env : EnvironmentA) (name : String) (val : Option ObjectA) :
    EnvironmentA :=
  (name, val) :: env

/-- Modelled from the spec: `Get(name)` with a found flag (§4.3). Lookup
returns the bound object itself — aliasing it, id included. -/
@[simp] def EnvironmentA.Get : EnvironmentA → String → Option ObjectA × Bool
  | [], _ => (none, false)
  | (k, v) :: rest, name => if k == name then (v, true) else EnvironmentA.Get rest name

/-- Embeds `newError` (evaluator.go line 209): `&object.Error{...}` is an
allocation, so it stamps and bumps the counter. -/
@[simp] def newErrorA (message : String) (c : Nat) : ObjectA × Nat :=
  (.error c message, c + 1)

/-- Embeds `isError` (evaluator.go line 213). -/
@[simp] def isErrorA : Option ObjectA → Bool
  | some obj => obj.objectTypeA == ERROR_OBJ
  | none => false

/-- Embeds `nativeBoolToBooleanObject` (evaluator.go line 169): returns a
singleton, no allocation. -/
@[simp] def nativeBoolToBooleanObjectA (input : Bool) : ObjectA :=
  if input then TRUEA else FALSEA

/-- Embeds `isTruthy` (evaluator.go line 82). -/
@[simp] def isTruthyA : Option ObjectA → Bool
  | some .null => false
  | some (.boolean true) => true
  | some (.boolean false) => false
  | _ => true

/-- Embeds `evalIntegerInfixExpression` (evaluator.go line 112): the four
arithmetic branches allocate a fresh Integer, the four comparisons return
singletons, the default allocates an Error. -/
@[simp] def evalIntegerInfixExpressionA (left right : Int) (operator : String) (c : Nat) :
    ObjectA × Nat :=
  if operator == token.PLUS then (.integer c (wrap64 (left + right)), c + 1)
  else if operator == token.MINUS then (.integer c (wrap64 (left - right)), c + 1)
  else if operator == token.ASTERISK then (.integer c (wrap64 (left * right)), c + 1)
  else if operator == token.SLASH then (.integer c (wrap64 (left.tdiv right)), c + 1)
  else if operator == token.EQ then (nativeBoolToBooleanObjectA (decide (left = right)), c)
  else if operator == token.NOT_EQ then (nativeBoolToBooleanObjectA (decide (left ≠ right)), c)
  else if operator == token.LT then (nativeBoolToBooleanObjectA (decide (left < right)), c)
  else if operator == token.GT then (nativeBoolToBooleanObjectA (decide (left > right)), c)
  else newErrorA ("unknown operator: " ++ INTEGER_OBJ ++ " " ++ operator ++ " " ++ INTEGER_OBJ) c

/-- Embeds `evalInfixExpression` (evaluator.go line 95): same guard order
as the structural model, with the `==`/`!=` cases on matching non-Integer
types now genuine pointer equality `refEqA`. -/
@[simp] def evalInfixExpressionA (left right : Option ObjectA) (operator : String) (c : Nat) :
    Option ObjectA × Nat :=
  match left, right with
  | some left, some right =>
    if left.objectTypeA != right.objectTypeA then
      match newErrorA ("type mismatch: " ++ left.objectTypeA ++ " + " ++ right.objectTypeA) c with
      | (e, c₁) => (some e, c₁)
    else
      match left, right with
      | .integer _ leftValue, .integer _ rightValue =>
          match evalIntegerInfixExpressionA leftValue rightValue operator c with
          | (o, c₁) => (some o, c₁)
      | _, _ =>
        if operator == token.EQ then (some (nativeBoolToBooleanObjectA (refEqA left right)), c)
        else if operator == token.NOT_EQ then
          (some (nativeBoolToBooleanObjectA (!refEqA left right)), c)
        else
          match newErrorA ("unknown operator: " ++ left.objectTypeA ++ " " ++ operator ++ " "
              ++ right.objectTypeA) c with
          | (e, c₁) => (some e, c₁)
  | _, _ => (none, c)

/-- Embeds `evalBangOperator` (evaluator.go line 156): singletons only, no
allocation. -/
@[simp] def evalBangOperatorA : Option ObjectA → ObjectA
  | some (.boolean true) => FALSEA
  | some (.boolean false) => TRUEA
  | some .null => TRUEA
  | _ => FALSEA

/-- Embeds `evalMinusPrefixOperator` (evaluator.go line 146): allocates
the negated Integer or an Error. -/
@[simp] def evalMinusPrefixOperatorA : Option ObjectA → Nat → Option ObjectA × Nat
  | some (.integer _ value), c => (some (.integer c (wrap64 (-value))), c + 1)
  | some o, c =>
      match newErrorA ("unknown operator: " ++ token.MINUS ++ o.objectTypeA) c with
      | (e, c₁) => (some e, c₁)
  | none, c => (none, c)

/-- Embeds `evalPrefixExpression` (evaluator.go line 135). -/
@[simp] def evalPrefixExpressionA (operator : String) (o : Option ObjectA) (c : Nat) :
    Option ObjectA × Nat :=
  if operator == token.BANG then (some (evalBangOperatorA o), c)
  else if operator == token.MINUS then evalMinusPrefixOperatorA o c
  else
    match o with
    | some obj =>
        match newErrorA ("unknown operator: " ++ operator ++ obj.objectTypeA) c with
        | (e, c₁) => (some e, c₁)
    | none => (none, c)

mutual

/-- Embeds `Eval` (evaluator.go line 16) with the allocation counter
threaded alongside the environment; the dispatch, the short-circuits and
the LetStatement fall-through are exactly as in the structural `Eval`. -/
@[simp] def EvalA : Node → EnvironmentA → Nat → Option ObjectA × EnvironmentA × Nat
  | .program statements, env, c => evalProgramA statements env c
  | .blockStatement statements, env, c => evalBlockStatementA statements env c
  | .expressionStatement expression, env, c => EvalA expression env c
  | .integerLiteral value, env, c => (some (.integer c value), env, c + 1)
  | .boolean value, env, c => (some (nativeBoolToBooleanObjectA value), env, c)
  | .prefixExpression operator right, env, c =>
      match EvalA right env c with
      | (r, env₁, c₁) =>
        if isErrorA r then (r, env₁, c₁)
        else
          match evalPrefixExpressionA operator r c₁ with
          | (o, c₂) => (o, env₁, c₂)
  | .infixExpression operator left right, env, c =>
      match EvalA left env c with
      | (l, env₁, c₁) =>
        if isErrorA l then (l, env₁, c₁)
        else
          match EvalA right env₁ c₁ with
          | (r, env₂, c₂) =>
            if isErrorA r then (r, env₂, c₂)
            else
              match evalInfixExpressionA l r operator c₂ with
              | (o, c₃) => (o, env₂, c₃)
  | .ifExpression condition consequence alternative, env, c =>
      evalIfExpressionA condition consequence alternative env c
  | .returnStatement returnValue, env, c =>
      match EvalA returnValue env c with
      | (val, env₁, c₁) =>
        if isErrorA val then (val, env₁, c₁)
        else (some (.returnValue c₁ val), env₁, c₁ + 1)
  | .letStatement name value, env, c =>
      match EvalA value env c with
      | (val, env₁, c₁) =>
        if isErrorA val then (val, env₁, c₁) else (none, env₁.Set name val, c₁)
  | .identifier value, env, c =>
      match env.Get value with
      | (val, ok) =>
        if !ok then
          match newErrorA ("identifier not found: " ++ value) c with
          | (e, c₁) => (some e, env, c₁)
        else (val, env, c)
termination_by n _ _ => sizeOf n
decreasing_by
all_goals simp_wf
all_goals omega

/-- Embeds `evalIfExpression` (evaluator.go line 69), allocation-indexed;
still no isError check on the condition. -/
@[simp] def evalIfExpressionA (condition consequence : Node) (alternative : Option Node)
    (env : EnvironmentA) (c : Nat) : Option ObjectA × EnvironmentA × Nat :=
  let r := EvalA condition env c
  if isTruthyA r.1 then EvalA consequence r.2.1 r.2.2
  else
    match alternative with
    | some alt => EvalA alt r.2.1 r.2.2
    | none => (some NULLA, r.2.1, r.2.2)
termination_by sizeOf condition + sizeOf consequence + sizeOf alternative
decreasing_by
all_goals simp_wf
all_goals try omega
all_goals
  (have h1 : 0 < sizeOf condition := by cases condition <;> simp_arith
   have h2 : 0 < sizeOf consequence := by cases consequence <;> simp_arith
   have h3 : 0 < sizeOf alternative := by cases alternative <;> simp_arith
   omega)

/-- Embeds `evalBlockStatement` (evaluator.go line 176), allocation-indexed. -/
@[simp] def evalBlockStatementA : List Node → EnvironmentA → Nat →
    Option ObjectA × EnvironmentA × Nat
  | [], env, c => (none, env, c)
  | statement :: rest, env, c =>
      match EvalA statement env c with
      | (result, env₁, c₁) =>
        match result with
        | some (.returnValue i v) => (some (.returnValue i v), env₁, c₁)
        | some (.error i m) => (some (.error i m), env₁, c₁)
        | _ => if rest.isEmpty then (result, env₁, c₁) else evalBlockStatementA rest env₁ c₁
termination_by l _ _ => sizeOf l
decreasing_by
all_goals simp_wf
all_goals omega

/-- Embeds `evalProgram` (evaluator.go line 193), allocation-indexed. -/
@[simp] def evalProgramA : List Node → EnvironmentA → Nat →
    Option ObjectA × EnvironmentA × Nat
  | [], env, c => (none, env, c)
  | statement :: rest, env, c =>
      match EvalA statement env c with
      | (result, env₁, c₁) =>
        match result with
        | some (.returnValue _ v) => (v, env₁, c₁)
        | some (.error i m) => (some (.error i m), env₁, c₁)
        | _ => if rest.isEmpty then (result, env₁, c₁) else evalProgramA rest env₁ c₁
termination_by l _ _ => sizeOf l
decreasing_by
all_goals simp_wf
all_goals omega

end


/-- Range reduction is the identity on values already in signed 64-bit range. -/
theorem wrap64_eq_self (n : Int) (h : isInt64 n) : wrap64 n = n := by
  obtain ⟨h1, h2⟩ := h
  unfold int64Min at h1
  unfold int64Max at h2
  unfold wrap64
  omega

/-- Range reduction always lands in the signed 64-bit range. -/
theorem isInt64_wrap64 (n : Int) : isInt64 (wrap64 n) := by
  unfold isInt64 wrap64 int64Min int64Max
  omega

/-- C1 (code_bug evidence): evaluating `if (x) { 10 }` in an empty
environment. The condition alone evaluates to the identifier-not-found
Error, yet the IfExpression evaluates the consequence and yields
Integer 10 — `evalIfExpression` feeds the condition result straight into
`isTruthy` with no isError check, so the Error is swallowed instead of
being returned unchanged. -/
theorem ifExpression_swallows_error_condition :
    Eval (.identifier "x") [] = (some (newError "identifier not found: x"), []) ∧
    Eval (.ifExpression (.identifier "x")
        (.blockStatement [.expressionStatement (.integerLiteral 10)]) none) []
      = (some (.integer 10), []) := by
  constructor <;> simp

/-- C2: program statements are evaluated in order against the threaded
environment; a statement whose result is a ReturnValue stops evaluation
and the unwrapped inner value is the overall result, a statement whose
result is an Error stops evaluation with the Error itself, and otherwise
the last statement's result is the overall result; concretely the program
`1; return 2; 3;` yields Integer 2 without evaluating `3;`. -/
theorem evalProgram_sequencing (s : Node) (rest : List Node) (env env' : Environment) :
    (∀ v, Eval s env = (some (.returnValue v), env') →
      Eval (.program (s :: rest)) env = (v, env')) ∧
    (∀ m, Eval s env = (some (.error m), env') →
      Eval (.program (s :: rest)) env = (some (.error m), env')) ∧
    (∀ r, Eval s env = (r, env') → (∀ v, r ≠ some (.returnValue v)) →
      (∀ m, r ≠ some (.error m)) →
      Eval (.program (s :: rest)) env
        = if rest.isEmpty then (r, env') else Eval (.program rest) env') ∧
    Eval (.program [.expressionStatement (.integerLiteral 1),
        .returnStatement (.integerLiteral 2),
        .expressionStatement (.integerLiteral 3)]) []
      = (some (.integer 2), []) := by
  refine ⟨?_, ?_, ?_, by simp⟩
  · intro v h
    simp [h]
  · intro m h
    simp [h]
  · intro r h hrv herr
    match r with
    | none => simp [h]
    | some (.integer n) => simp [h]
    | some (.boolean b) => simp [h]
    | some .null => simp [h]
    | some (.returnValue v) => exact absurd rfl (hrv v)
    | some (.error m) => exact absurd rfl (herr m)

/-- Witness for C2: the program `return 7; 9;` yields Integer 7. -/
theorem evalProgram_sequencing_witness :
    Eval (.program [.returnStatement (.integerLiteral 7),
        .expressionStatement (.integerLiteral 9)]) []
      = (some (.integer 7), []) :=
  (evalProgram_sequencing (.returnStatement (.integerLiteral 7))
      [.expressionStatement (.integerLiteral 9)] [] []).1 (some (.integer 7)) (by simp)

/-- C3: block statements are evaluated in order; on the first statement
whose result is a ReturnValue or an Error, that result is returned as-is
(the ReturnValue wrapper is not unwrapped), otherwise the last
statement's result is returned. -/
theorem evalBlockStatement_propagation (s : Node) (rest : List Node) (env env' : Environment) :
    (∀ v, Eval s env = (some (.returnValue v), env') →
      Eval (.blockStatement (s :: rest)) env = (some (.returnValue v), env')) ∧
    (∀ m, Eval s env = (some (.error m), env') →
      Eval (.blockStatement (s :: rest)) env = (some (.error m), env')) ∧
    (∀ r, Eval s env = (r, env') → (∀ v, r ≠ some (.returnValue v)) →
      (∀ m, r ≠ some (.error m)) →
      Eval (.blockStatement (s :: rest)) env
        = if rest.isEmpty then (r, env') else Eval (.blockStatement rest) env') := by
  refine ⟨?_, ?_, ?_⟩
  · intro v h
    simp [h]
  · intro m h
    simp [h]
  · intro r h hrv herr
    match r with
    | none => simp [h]
    | some (.integer n) => simp [h]
    | some (.boolean b) => simp [h]
    | some .null => simp [h]
    | some (.returnValue v) => exact absurd rfl (hrv v)
    | some (.error m) => exact absurd rfl (herr m)

/-- Witness for C3: the block `{ return 7; 9; }` propagates the wrapped
ReturnValue itself. -/
theorem evalBlockStatement_propagation_witness :
    Eval (.blockStatement [.returnStatement (.integerLiteral 7),
        .expressionStatement (.integerLiteral 9)]) []
      = (some (.returnValue (some (.integer 7))), []) :=
  (evalBlockStatement_propagation (.returnStatement (.integerLiteral 7))
      [.expressionStatement (.integerLiteral 9)] [] []).1 (some (.integer 7)) (by simp)


/-- C4 counterexample: evaluating `a + b` at a = b = int64Max (the maximal
signed 64-bit integer) yields the wrapped Integer -2, while the exact
arithmetic sum is 2^64 - 2; so `a + b` is not always the exact result. -/
theorem integerInfix_overflow_counterexample :
    Eval (.infixExpression token.PLUS (.integerLiteral int64Max)
        (.integerLiteral int64Max)) []
      = (some (.integer (-2)), []) ∧
    int64Max + int64Max = 2 ^ 64 - 2 ∧ ((-2 : Int) ≠ 2 ^ 64 - 2) := by
  refine ⟨?_, by norm_num [int64Max], by norm_num⟩
  simp
  norm_num [wrap64, int64Max]

/-- C4 amended: for int64-representable a, b with b ≠ 0, `a + b`, `a - b`,
`a * b` yield the Integer holding the exact arithmetic result reduced into
signed 64-bit range by wrap64 — hence exactly the arithmetic result
whenever that is representable — and `a / b` likewise yields the
truncating (toward-zero) quotient `Int.tdiv a b` up to the same
reduction; `==`, `!=`, `<`, `>` compare the two values and return the
canonical TRUE or FALSE singleton. -/
theorem evalIntegerInfix_semantics (a b : Int) (_ha : isInt64 a) (_hb : isInt64 b)
    (_hbz : b ≠ 0) :
    Eval (.infixExpression token.PLUS (.integerLiteral a) (.integerLiteral b)) []
      = (some (.integer (wrap64 (a + b))), []) ∧
    Eval (.infixExpression token.MINUS (.integerLiteral a) (.integerLiteral b)) []
      = (some (.integer (wrap64 (a - b))), []) ∧
    Eval (.infixExpression token.ASTERISK (.integerLiteral a) (.integerLiteral b)) []
      = (some (.integer (wrap64 (a * b))), []) ∧
    Eval (.infixExpression token.SLASH (.integerLiteral a) (.integerLiteral b)) []
      = (some (.integer (wrap64 (a.tdiv b))), []) ∧
    (isInt64 (a + b) →
      Eval (.infixExpression token.PLUS (.integerLiteral a) (.integerLiteral b)) []
        = (some (.integer (a + b)), [])) ∧
    (isInt64 (a - b) →
      Eval (.infixExpression token.MINUS (.integerLiteral a) (.integerLiteral b)) []
        = (some (.integer (a - b)), [])) ∧
    (isInt64 (a * b) →
      Eval (.infixExpression token.ASTERISK (.integerLiteral a) (.integerLiteral b)) []
        = (some (.integer (a * b)), [])) ∧
    (isInt64 (a.tdiv b) →
      Eval (.infixExpression token.SLASH (.integerLiteral a) (.integerLiteral b)) []
        = (some (.integer (a.tdiv b)), [])) ∧
    Eval (.infixExpression token.EQ (.integerLiteral a) (.integerLiteral b)) []
      = (some (nativeBoolToBooleanObject (decide (a = b))), []) ∧
    Eval (.infixExpression token.NOT_EQ (.integerLiteral a) (.integerLiteral b)) []
      = (some (nativeBoolToBooleanObject (decide (a ≠ b))), []) ∧
    Eval (.infixExpression token.LT (.integerLiteral a) (.integerLiteral b)) []
      = (some (nativeBoolToBooleanObject (decide (a < b))), []) ∧
    Eval (.infixExpression token.GT (.integerLiteral a) (.integerLiteral b)) []
      = (some (nativeBoolToBooleanObject (decide (a > b))), []) := by
  refine ⟨by simp, by simp, by simp, by simp, ?_, ?_, ?_, ?_, by simp, by simp, by simp, by simp⟩
  all_goals intro h
  all_goals simp [wrap64_eq_self _ h]

/-- Witness for C4's amended theorem at a = 7, b = 2: `7 + 2` yields the
exact Integer 9. -/
theorem evalIntegerInfix_semantics_witness :
    Eval (.infixExpression token.PLUS (.integerLiteral 7) (.integerLiteral 2)) []
      = (some (.integer 9), []) :=
  (evalIntegerInfix_semantics 7 2 (by decide) (by decide)
      (by decide)).2.2.2.2.1 (by decide)

/-- C5: when both operands of an infix expression evaluate successfully
to Objects with different type tags, the result is an Error whose message
fixes the literal `+` symbol regardless of the actual operator, and this
check precedes every operator-specific rule; concretely both `5 * true`
and `5 + true` yield exactly `type mismatch: INTEGER + BOOLEAN`. -/
theorem typeMismatch_semantics (le re : Node) (op : String) (l r : Object)
    (env env₁ env₂ : Environment)
    (hl : Eval le env = (some l, env₁)) (hr : Eval re env₁ = (some r, env₂))
    (hle : isError (some l) = false) (hre : isError (some r) = false)
    (hne : l.objectType ≠ r.objectType) :
    Eval (.infixExpression op le re) env
      = (some (.error ("type mismatch: " ++ l.objectType ++ " + " ++ r.objectType)), env₂) ∧
    Eval (.infixExpression token.ASTERISK (.integerLiteral 5) (.boolean true)) []
      = (some (.error "type mismatch: INTEGER + BOOLEAN"), []) ∧
    Eval (.infixExpression token.PLUS (.integerLiteral 5) (.boolean true)) []
      = (some (.error "type mismatch: INTEGER + BOOLEAN"), []) := by
  refine ⟨?_, by simp, by simp⟩
  cases l <;> cases r <;> simp_all

/-- Witness for C5 at `true < 3`: both operands succeed, tags differ, and
the message cites `+` although the operator is `<`. -/
theorem typeMismatch_semantics_witness :
    Eval (.infixExpression token.LT (.boolean true) (.integerLiteral 3)) []
      = (some (.error "type mismatch: BOOLEAN + INTEGER"), []) := by
  have h := (typeMismatch_semantics (.boolean true) (.integerLiteral 3) token.LT
      TRUE (.integer 3) [] [] [] (by simp) (by simp) (by simp) (by simp) (by simp)).1
  exact h

/-- C6: for infix `==` and `!=` whose two operands are Objects of the
same non-Integer type tag, the result is decided by reference identity of
the two operand Objects (Go interface pointer equality, exact in the
allocation-indexed model: the canonical singletons compare by value, heap
objects by allocation id), not by structural comparison; on the Boolean
singletons reference identity coincides with the boolean values being
equal; concretely `true == true` and `false != true` yield the canonical
TRUE and `true == false` yields the canonical FALSE, a ReturnValue
aliased into both operands through an environment binding
(`let x = if (true) { return 5; }; x == x`) compares TRUE to itself, and
two structurally identical but separately allocated ReturnValues
(`if (true) { return 5; } == if (true) { return 5; }`, both wrapping
Integer 5) compare FALSE — identity, not structure, decides. -/
theorem identityEquality_semantics (l r : ObjectA) (c : Nat) :
    (l.objectTypeA = r.objectTypeA → l.objectTypeA ≠ INTEGER_OBJ →
      evalInfixExpressionA (some l) (some r) token.EQ c
        = (some (nativeBoolToBooleanObjectA (refEqA l r)), c) ∧
      evalInfixExpressionA (some l) (some r) token.NOT_EQ c
        = (some (nativeBoolToBooleanObjectA (!refEqA l r)), c)) ∧
    (∀ a b : Bool, refEqA (.boolean a) (.boolean b) = (a == b)) ∧
    refEqA NULLA NULLA = true ∧
    EvalA (.infixExpression token.EQ (.boolean true) (.boolean true)) [] 0
      = (some TRUEA, [], 0) ∧
    EvalA (.infixExpression token.NOT_EQ (.boolean false) (.boolean true)) [] 0
      = (some TRUEA, [], 0) ∧
    EvalA (.infixExpression token.EQ (.boolean true) (.boolean false)) [] 0
      = (some FALSEA, [], 0) ∧
    EvalA (.program [.letStatement "x" (.ifExpression (.boolean true)
          (.blockStatement [.returnStatement (.integerLiteral 5)]) none),
        .expressionStatement (.infixExpression token.EQ
          (.identifier "x") (.identifier "x"))]) [] 0
      = (some TRUEA, [("x", some (.returnValue 1 (some (.integer 0 5))))], 2) ∧
    EvalA (.infixExpression token.EQ
        (.ifExpression (.boolean true)
          (.blockStatement [.returnStatement (.integerLiteral 5)]) none)
        (.ifExpression (.boolean true)
          (.blockStatement [.returnStatement (.integerLiteral 5)]) none)) [] 0
      = (some FALSEA, [], 4) := by
  refine ⟨?_, ?_, by simp, by simp, by simp, by simp, ?_, ?_⟩
  · intro h1 h2
    cases l <;> cases r <;> simp_all
  · intro a b
    cases a <;> cases b <;> simp
  · simp [evalIfExpressionA]
  · simp [evalIfExpressionA]

/-- Witness for C6 on the Null singletons: `null == null` evaluates by
identity to the canonical TRUE. -/
theorem identityEquality_semantics_witness :
    evalInfixExpressionA (some NULLA) (some NULLA) token.EQ 0
      = (some (nativeBoolToBooleanObjectA (refEqA NULLA NULLA)), 0) :=
  ((identityEquality_semantics NULLA NULLA 0).1 (by simp) (by simp)).1


/-- C7: the canonical Null and FALSE are the only falsy condition values —
every other Object, every Integer (zero included) and TRUE among them, is
truthy; a truthy condition selects the consequence, a falsy condition
selects the alternative when one is present, and a falsy condition with
no alternative yields the canonical Null singleton. -/
theorem truthiness_and_ifExpression (o : Object) (n : Int)
    (condition consequence alt : Node) (env env₁ : Environment) (c : Option Object) :
    isTruthy (some NULL) = false ∧
    isTruthy (some FALSE) = false ∧
    (o ≠ NULL → o ≠ FALSE → isTruthy (some o) = true) ∧
    isTruthy (some (.integer n)) = true ∧
    isTruthy (some (.integer 0)) = true ∧
    isTruthy (some TRUE) = true ∧
    (Eval condition env = (c, env₁) → isTruthy c = true →
      Eval (.ifExpression condition consequence (some alt)) env
        = Eval consequence env₁) ∧
    (Eval condition env = (c, env₁) → isTruthy c = true →
      Eval (.ifExpression condition consequence none) env = Eval consequence env₁) ∧
    (Eval condition env = (c, env₁) → isTruthy c = false →
      Eval (.ifExpression condition consequence (some alt)) env = Eval alt env₁) ∧
    (Eval condition env = (c, env₁) → isTruthy c = false →
      Eval (.ifExpression condition consequence none) env = (some NULL, env₁)) := by
  refine ⟨by simp, by simp, ?_, by simp, by simp, by simp, ?_, ?_, ?_, ?_⟩
  · intro h1 h2
    match o with
    | .integer n => simp
    | .boolean true => simp
    | .boolean false => exact absurd rfl h2
    | .null => exact absurd rfl h1
    | .returnValue v => simp
    | .error m => simp
  all_goals intro h ht
  all_goals simp [evalIfExpression, h, ht]
  all_goals intro hc
  all_goals simp only [isTruthy] at ht
  all_goals rw [ht] at hc
  all_goals simp at hc

/-- Witness for C7: `if (0) { 10 } else { 20 }` takes the consequence,
zero being truthy. -/
theorem truthiness_and_ifExpression_witness :
    Eval (.ifExpression (.integerLiteral 0)
        (.blockStatement [.expressionStatement (.integerLiteral 10)])
        (some (.blockStatement [.expressionStatement (.integerLiteral 20)]))) []
      = Eval (.blockStatement [.expressionStatement (.integerLiteral 10)]) [] :=
  (truthiness_and_ifExpression (.integer 0) 0 (.integerLiteral 0)
      (.blockStatement [.expressionStatement (.integerLiteral 10)])
      (.blockStatement [.expressionStatement (.integerLiteral 20)]) [] []
      (some (.integer 0))).2.2.2.2.2.2.1 (by simp) (by simp)

/-- C8: the `!` operator maps the canonical TRUE to FALSE, FALSE to TRUE,
Null to TRUE, and every other successfully evaluated operand to FALSE
regardless of its value; concretely `!5` yields FALSE and `!!true`
yields TRUE. -/
theorem bangOperator_semantics (o : Object) (e : Node) (env env₁ : Environment) :
    evalBangOperator (some TRUE) = FALSE ∧
    evalBangOperator (some FALSE) = TRUE ∧
    evalBangOperator (some NULL) = TRUE ∧
    (o ≠ TRUE → o ≠ FALSE → o ≠ NULL → evalBangOperator (some o) = FALSE) ∧
    (∀ r, Eval e env = (some r, env₁) → isError (some r) = false →
      Eval (.prefixExpression token.BANG e) env
        = (some (evalBangOperator (some r)), env₁)) ∧
    Eval (.prefixExpression token.BANG (.integerLiteral 5)) [] = (some FALSE, []) ∧
    Eval (.prefixExpression token.BANG
        (.prefixExpression token.BANG (.boolean true))) [] = (some TRUE, []) := by
  refine ⟨by simp, by simp, by simp, ?_, ?_, by simp, by simp⟩
  · intro h1 h2 h3
    match o with
    | .integer n => simp
    | .boolean true => exact absurd rfl h1
    | .boolean false => exact absurd rfl h2
    | .null => exact absurd rfl h3
    | .returnValue v => simp
    | .error m => simp
  · intro r h herr
    match r with
    | .integer n => simp [h]
    | .boolean b => simp [h]
    | .null => simp [h]
    | .returnValue v => simp [h]
    | .error m => simp at herr

/-- Witness for C8: the generic conjunct applied at the Integer 5 operand
evaluated through Eval — an operand that is neither TRUE, FALSE nor Null
negates to FALSE. -/
theorem bangOperator_semantics_witness :
    Eval (.prefixExpression token.BANG (.integerLiteral 5)) []
      = (some (evalBangOperator (some (.integer 5))), []) :=
  (bangOperator_semantics (.integer 5) (.integerLiteral 5) [] []).2.2.2.2.1
    (.integer 5) (by simp) (by simp)

/-- C9 counterexample: in `let x = if (true) { let y = 1; z };` the value
expression evaluates to the identifier-not-found Error for z, which the
let propagates without binding x — but the environment is not left
completely unchanged: the binding y = 1 made while evaluating the value
expression persists. -/
theorem letStatement_error_env_counterexample :
    Eval (.letStatement "x" (.ifExpression (.boolean true)
        (.blockStatement [.letStatement "y" (.integerLiteral 1),
          .expressionStatement (.identifier "z")]) none)) []
      = (some (.error "identifier not found: z"), [("y", some (.integer 1))]) ∧
    ([("y", some (.integer 1))] : Environment) ≠ ([] : Environment) := by
  constructor
  · simp [evalIfExpression]
  · simp

/-- C9 amended: if the value expression of a let yields an Error, that
Error is returned and no binding is created or overwritten by the let
itself — the environment is exactly the one the value evaluation
produced (bindings made inside the value expression persist); otherwise
the result is bound under the statement's name (created or overwritten,
and retrievable afterwards), and `let x = 5; x` yields Integer 5. -/
theorem letStatement_semantics (name : String) (value : Node) (env env' : Environment) :
    (∀ m, Eval value env = (some (.error m), env') →
      Eval (.letStatement name value) env = (some (.error m), env')) ∧
    (∀ v, Eval value env = (some v, env') → isError (some v) = false →
      Eval (.letStatement name value) env = (none, env'.Set name (some v)) ∧
        (env'.Set name (some v)).Get name = (some v, true)) ∧
    Eval (.program [.letStatement "x" (.integerLiteral 5),
        .expressionStatement (.identifier "x")]) []
      = (some (.integer 5), [("x", some (.integer 5))]) := by
  refine ⟨?_, ?_, by simp⟩
  · intro m h
    simp [h]
  · intro v h herr
    match v with
    | .integer n => exact ⟨by simp [h], by simp⟩
    | .boolean b => exact ⟨by simp [h], by simp⟩
    | .null => exact ⟨by simp [h], by simp⟩
    | .returnValue w => exact ⟨by simp [h], by simp⟩
    | .error m => simp at herr

/-- Witness for C9's amended theorem: `let x = 5` binds x to Integer 5
(via the success conjunct). -/
theorem letStatement_semantics_witness :
    Eval (.letStatement "x" (.integerLiteral 5)) []
      = (none, Environment.Set [] "x" (some (.integer 5))) ∧
    (Environment.Set [] "x" (some (.integer 5))).Get "x"
      = (some (.integer 5), true) :=
  (letStatement_semantics "x" (.integerLiteral 5) [] []).2.1
    (.integer 5) (by simp) (by simp)

/-- C10: infix `+`, `-`, `*` and prefix `-` compute on signed 64-bit
values: each result is the exact value reduced modulo 2^64 into the
signed 64-bit range (still an Integer — overflow never produces an
Error), and negating int64Min yields int64Min itself; concretely
`int64Max + 1` wraps to int64Min. -/
theorem int64_wrapping (a b : Int) (_ha : isInt64 a) (_hb : isInt64 b) :
    Eval (.infixExpression token.PLUS (.integerLiteral a) (.integerLiteral b)) []
      = (some (.integer (wrap64 (a + b))), []) ∧
    Eval (.infixExpression token.MINUS (.integerLiteral a) (.integerLiteral b)) []
      = (some (.integer (wrap64 (a - b))), []) ∧
    Eval (.infixExpression token.ASTERISK (.integerLiteral a) (.integerLiteral b)) []
      = (some (.integer (wrap64 (a * b))), []) ∧
    Eval (.prefixExpression token.MINUS (.integerLiteral a)) []
      = (some (.integer (wrap64 (-a))), []) ∧
    isInt64 (wrap64 (a + b)) ∧ isInt64 (wrap64 (a * b)) ∧ isInt64 (wrap64 (-a)) ∧
    Eval (.infixExpression token.PLUS (.integerLiteral int64Max) (.integerLiteral 1)) []
      = (some (.integer int64Min), []) ∧
    Eval (.prefixExpression token.MINUS (.integerLiteral int64Min)) []
      = (some (.integer int64Min), []) := by
  refine ⟨by simp, by simp, by simp, by simp,
    isInt64_wrap64 _, isInt64_wrap64 _, isInt64_wrap64 _, ?_, ?_⟩
  · simp
    norm_num [wrap64, int64Max, int64Min]
  · simp
    norm_num [wrap64, int64Min]

/-- Witness for C10 at a = 1, b = 2. -/
theorem int64_wrapping_witness :
    Eval (.infixExpression token.PLUS (.integerLiteral 1) (.integerLiteral 2)) []
      = (some (.integer (wrap64 (1 + 2))), []) :=
  (int64_wrapping 1 2 (by decide) (by decide)).1

end Monkey
